import Mathlib

/-!
Verification of the DotWiz dictionary wrapper (src/main.py, with the lazy-read
variant in src/benchmarks/main_test.py).

The embedding models Python values reachable through the wrapper: `PyVal` is
the value domain, a DotWiz backing store (`self.__dict__`) is an insertion
ordered association list `Store`, and fallible operations return
`Except PyErr _` where `PyErr` mirrors the Python exception class raised.
Dictionary primitives (`dictGet`, `dictSet`, `dictRemove`, `dictUnion`) mirror
CPython dict semantics: updating an existing key keeps its position, new keys
are appended.
-/

/-- Keys of a Python dict as used by the repository: strings and ints.
Attribute access (`getattr`, `delattr`) requires a string name and raises
TypeError otherwise, which several DotWiz methods catch to dispatch. -/
inductive PyKey : Type where
  | str (s : String)
  | int (n : Int)
deriving DecidableEq

/-- Python exceptions raised by the modelled code, by class.
`attributeError` is the spec's AttributeNotFound kind, `keyError` its
KeyNotFound kind, `valueError` its InvalidArgument kind. -/
inductive PyErr : Type where
  | attributeError (msg : String)
  | keyError (msg : String)
  | typeError (msg : String)
  | valueError (msg : String)
deriving DecidableEq

/-- Python values reachable through the DotWiz code: scalars, strings,
tuples, lists, plain dicts, DotWiz instances (their backing store), and
opaque class attributes / bound methods (`pyObj`). -/
inductive PyVal : Type where
  | none
  | bool (b : Bool)
  | int (n : Int)
  | str (s : String)
  | pyObj (name : String)
  | tuple (xs : List PyVal)
  | list (xs : List PyVal)
  | dict (entries : List (PyKey × PyVal))
  | dotwiz (store : List (PyKey × PyVal))

/-- A DotWiz backing store (`self.__dict__`): an insertion-ordered list of
key/value entries. -/
abbrev Store := List (PyKey × PyVal)

/-- Python truthiness of a value (`bool(v)`). A DotWiz is truthy iff its
backing store is nonempty (`DotWiz.__bool__`); containers are truthy iff
nonempty; opaque objects (methods, class attributes) are truthy. -/
def isTruthy : PyVal → Bool
  | PyVal.none => false
  | PyVal.bool b => b
  | PyVal.int n => n != 0
  | PyVal.str s => s ≠ ""
  | PyVal.pyObj _ => true
  | PyVal.tuple xs => !xs.isEmpty
  | PyVal.list xs => !xs.isEmpty
  | PyVal.dict d => !d.isEmpty
  | PyVal.dotwiz s => !s.isEmpty

/-- `v is None`. -/
def isNone : PyVal → Bool
  | PyVal.none => true
  | _ => false

mutual
/-- Hashability of a value: scalars and tuples of hashables are hashable;
lists, dicts and DotWiz instances (which define `__eq__` without `__hash__`)
are not. -/
def hashablePy : PyVal → Bool
  | PyVal.none => true
  | PyVal.bool _ => true
  | PyVal.int _ => true
  | PyVal.str _ => true
  | PyVal.pyObj _ => true
  | PyVal.tuple xs => hashablePyList xs
  | PyVal.list _ => false
  | PyVal.dict _ => false
  | PyVal.dotwiz _ => false

/-- Hashability of every element of a list. -/
def hashablePyList : List PyVal → Bool
  | [] => true
  | x :: xs => hashablePy x && hashablePyList xs
end

/-- A key viewed as a value (used when iteration yields keys or item tuples). -/
def keyToVal : PyKey → PyVal
  | PyKey.str s => PyVal.str s
  | PyKey.int n => PyVal.int n

/-- Text of a key for error messages. -/
def reprKey : PyKey → String
  | PyKey.str s => s
  | PyKey.int n => toString n

/-- `d.get(k)` / `d[k]` lookup in an association-list dict: first matching
entry. -/
def dictGet : Store → PyKey → Option PyVal
  | [], _ => Option.none
  | (k2, v) :: rest, k => if k2 = k then some v else dictGet rest k

/-- `d.get(k, default)` with a default (`dict.get`). -/
def dictGetD (s : Store) (k : PyKey) (d : PyVal) : PyVal :=
  (dictGet s k).getD d

/-- `d[k] = v`: update the first matching entry in place (keeping its
position) or append a new entry at the end, as CPython dicts do. -/
def dictSet : Store → PyKey → PyVal → Store
  | [], k, v => [(k, v)]
  | (k2, v2) :: rest, k, v =>
      if k2 = k then (k2, v) :: rest else (k2, v2) :: dictSet rest k v

/-- `del d[k]`: drop the entry for `k`. -/
def dictRemove : Store → PyKey → Store
  | [], _ => []
  | (k2, v2) :: rest, k =>
      if k2 = k then dictRemove rest k else (k2, v2) :: dictRemove rest k

/-- `{**a, **b}` and `dict.__or__`: entries of `a` keep their positions,
values from `b` win on collision, fresh keys of `b` are appended in order. -/
def dictUnion (a b : Store) : Store :=
  b.foldl (fun acc kv => dictSet acc kv.1 kv.2) a

theorem dictGet_set_self (s : Store) (k : PyKey) (v : PyVal) :
    dictGet (dictSet s k v) k = some v := by
  induction s with
  | nil => simp [dictSet, dictGet]
  | cons kv rest ih =>
      obtain ⟨k2, v2⟩ := kv
      by_cases h : k2 = k
      · simp [dictSet, dictGet, h]
      · simp [dictSet, dictGet, h, ih]

theorem dictGet_set_ne (s : Store) (k k2 : PyKey) (v : PyVal) (h : k ≠ k2) :
    dictGet (dictSet s k v) k2 = dictGet s k2 := by
  induction s with
  | nil => simp [dictSet, dictGet, h]
  | cons kv rest ih =>
      obtain ⟨k3, v3⟩ := kv
      by_cases h2 : k3 = k
      · subst h2
        simp [dictSet, dictGet, h]
      · simp [dictSet, dictGet, h2, ih]

theorem dictGet_remove_self (s : Store) (k : PyKey) :
    dictGet (dictRemove s k) k = Option.none := by
  induction s with
  | nil => rfl
  | cons kv rest ih =>
      obtain ⟨k2, v2⟩ := kv
      by_cases h : k2 = k
      · simp [dictRemove, h, ih]
      · simp [dictRemove, dictGet, h, ih]

/-!
Embedding of `src/main.py`.

`class DotWiz` has `__slots__ = ("__dict__",)`, so the backing store is the
instance `__dict__`. Attribute lookup on an instance therefore resolves, in
order: the `__dict__` slot descriptor (a data descriptor), the backing store
itself, class attributes (methods and `print_char`), and finally
`DotWiz.__getattr__`, which returns `self.get(item, None)` ("default dict
behavior": a miss yields `None`, it never raises).
-/

/-- Names found on the `DotWiz` class (its own namespace plus attributes
inherited from `object`). When an absent key collides with one of these,
plain attribute lookup returns the method / class attribute instead of
falling through to `__getattr__`. `__hash__` is listed although its value in
the class namespace is `None` (because `__eq__` is defined without
`__hash__`); `getattrDW` treats it first. -/
def dotWizClassAttrs : List String :=
  ["__slots__", "__init__", "update", "print_char", "__bool__", "__contains__",
   "__eq__", "__ne__", "__hash__", "__class_getitem__", "__delitem__",
   "__getitem__", "__getattr__", "__setattr__", "__setitem__", "__iter__",
   "__len__", "__repr__", "__or__", "__ior__", "__ror__", "__reversed__",
   "clear", "copy", "fromkeys", "get", "keys", "items", "pop", "popitem",
   "setdefault", "values", "from_json", "to_dict", "to_json", "__module__",
   "__qualname__", "__doc__", "__str__", "__getattribute__", "__new__",
   "__reduce__", "__reduce_ex__", "__sizeof__", "__dir__", "__class__",
   "__delattr__", "__format__", "__ge__", "__gt__", "__le__", "__lt__",
   "__init_subclass__", "__subclasshook__"]

/-- `DotWiz.get(self, k, default)`: exactly `dict.get(self.__dict__, k,
default)`. -/
def dotWizGet (self : Store) (k : PyKey) (default : PyVal) : PyVal :=
  dictGetD self k default

/-- `getattr(dw, name)` for a string name. Resolution order as in CPython:
the `__dict__` slot data descriptor, then the instance `__dict__` (the
backing store), then class attributes (`__hash__` is the value `None` in the
class namespace; other class attributes are opaque `pyObj`s), and finally
`DotWiz.__getattr__`, i.e. `self.get(item, None)`. The call `self.get` itself
resolves through the store first, so a stored entry under the key `"get"`
shadows the bound method; calling such a stored (non-callable) value is
modelled as a TypeError — the claims never populate that key. For a string
name this lookup can only fail through that shadowing. -/
def getattrDW (self : Store) (name : String) : Except PyErr PyVal :=
  if name = "__dict__" then Except.ok (PyVal.dict self)
  else
    match dictGet self (PyKey.str name) with
    | some v => Except.ok v
    | Option.none =>
        if name = "__hash__" then Except.ok PyVal.none
        else if name ∈ dotWizClassAttrs then Except.ok (PyVal.pyObj name)
        else
          match dictGet self (PyKey.str "get") with
          | some _ => Except.error (PyErr.typeError "stored object shadowing get is not callable")
          | Option.none => Except.ok (dotWizGet self (PyKey.str name) PyVal.none)

/-- `DotWiz.__getitem__(self, key)`:
`try: return getattr(self, key) except TypeError: return self.__dict__[key]`.
For a string key this is attribute lookup (a TypeError from it falls back to
the raw store, raising KeyError on a miss); for a non-string key `getattr`
raises TypeError immediately, so the store is consulted directly. -/
def dotWizGetItem (self : Store) (key : PyKey) : Except PyErr PyVal :=
  match key with
  | PyKey.str s =>
      match getattrDW self s with
      | Except.ok v => Except.ok v
      | Except.error (PyErr.typeError _) =>
          match dictGet self key with
          | some v => Except.ok v
          | Option.none => Except.error (PyErr.keyError s)
      | Except.error e => Except.error e
  | PyKey.int _ =>
      match dictGet self key with
      | some v => Except.ok v
      | Option.none => Except.error (PyErr.keyError (reprKey key))

/-- `DotWiz.__contains__(self, item)`:
`try: return item, getattr(self, item)` — note the comma: the method returns
a 2-tuple, which the `in` operator coerces with `bool(...)`, and a 2-tuple is
always truthy. `except AttributeError: return False`;
`except TypeError: return item in self.__dict__` (taken for non-string keys,
where `getattr` raises TypeError). -/
def dotWizContains (self : Store) (item : PyKey) : Bool :=
  match item with
  | PyKey.str s =>
      match getattrDW self s with
      | Except.ok v => isTruthy (PyVal.tuple [PyVal.str s, v])
      | Except.error (PyErr.typeError _) => (dictGet self item).isSome
      | Except.error _ => false
  | PyKey.int _ => (dictGet self item).isSome

/-- `DotWiz.__delitem__(self, key)`:
`try: delattr(self, key) except TypeError: del self.__dict__[key]`.
`delattr` with a string name deletes the store entry (AttributeError on a
miss); the name `"__dict__"` hits the slot descriptor and deletes the whole
instance dict, which is recreated empty on next access; a non-string key
makes `delattr` raise TypeError, so `del self.__dict__[key]` runs, raising
KeyError on a miss. -/
def dotWizDelItem (self : Store) (key : PyKey) : Except PyErr Store :=
  match key with
  | PyKey.str s =>
      if s = "__dict__" then Except.ok []
      else
        match dictGet self key with
        | some _ => Except.ok (dictRemove self key)
        | Option.none => Except.error (PyErr.attributeError s)
  | PyKey.int _ =>
      match dictGet self key with
      | some _ => Except.ok (dictRemove self key)
      | Option.none => Except.error (PyErr.keyError (reprKey key))

/-- Message of the TypeError raised when `_resolve_value`, a 2-parameter
function, is called with 3 positional arguments — which the source does in
`_merge_impl_fn`, `_ior_impl` and `setdefault`. -/
def resolveArityMsg : String :=
  "resolve value takes from 1 to 2 positional arguments but 3 were given"

/-- `DotWiz.setdefault(self, k, default, check_lists)`:
`result = dict.get(self.__dict__, k)`; a stored non-None value is returned
with the store untouched (`if result is not None`); otherwise the source
executes `self.__dict__[k] = default = _resolve_value(default, DotWiz,
check_lists)`, a 3-positional-argument call of the 2-parameter
`_resolve_value`, which raises TypeError before anything is stored. -/
def dotWizSetdefault (self : Store) (k : PyKey) (default : PyVal)
    (check_lists : Bool) : Except PyErr (PyVal × Store) :=
  let result := dictGetD self k PyVal.none
  if isNone result then Except.error (PyErr.typeError resolveArityMsg)
  else Except.ok (result, self)

/-- `DotWiz(dw, check_lists)` where the input is itself a DotWiz instance
(reached from `_resolve_value` / `_upsert_into_dot_wiz` when a value has an
instance `__dict__` whose store holds a truthy `"fromkeys"` entry).
`_upsert_into_dot_wiz` then runs `for key in input_dict`, and iterating a
DotWiz yields `(key, value)` tuples (`__iter__` returns
`iter(self.__dict__.items())`); `input_dict[tuple]` goes through
`__getitem__`, where `getattr(self, tuple)` raises TypeError (non-string
name), caught, and `self.__dict__[tuple]` then raises KeyError for a
hashable tuple (its keys are never tuples) or TypeError when the tuple holds
an unhashable value. An empty store is falsy, so construction returns an
empty instance untouched. -/
def dotWizReinit (s : Store) : Except PyErr Store :=
  match s with
  | [] => Except.ok []
  | (k, v) :: _ =>
      if hashablePy (PyVal.tuple [keyToVal k, v]) then
        Except.error (PyErr.keyError (reprKey k))
      else Except.error (PyErr.typeError "unhashable type")

/-- `_resolve_value(value, check_lists)` from `src/main.py`. Builtin dicts,
lists and scalars have no instance `__dict__`, so both probes
(`value.__dict__.get("fromkeys")`, `value.__dict__.get("append")`) raise
AttributeError and the value is returned VERBATIM — nested mappings are
never converted here. Only a DotWiz value has an instance `__dict__`: a
truthy stored `"fromkeys"` entry triggers `DotWiz(value, check_lists)`
(see `dotWizReinit`); otherwise, when `check_lists` holds, the second `try`
block ignores the result of the `"append"` probe and unconditionally returns
`[_resolve_value(e, check_lists) for e in value]`, the list of the
instance's `(key, value)` item tuples (tuples have no `__dict__`, so each
element is returned unchanged). -/
def _resolve_value (value : PyVal) (check_lists : Bool) : Except PyErr PyVal :=
  match value with
  | PyVal.dotwiz s =>
      if isTruthy (dictGetD s (PyKey.str "fromkeys") PyVal.none) then
        (dotWizReinit s).map PyVal.dotwiz
      else if check_lists then
        Except.ok (PyVal.list (s.map (fun kv => PyVal.tuple [keyToVal kv.1, kv.2])))
      else Except.ok value
  | _ => Except.ok value

/-- Per-entry processing in the `_check_types` loop of
`_upsert_into_dot_wiz` (lines 109-123 of `src/main.py`): the same two
duck-typing probes as `_resolve_value`, inline. For a plain dict or list
value both probes raise AttributeError (builtin instances have no
`__dict__`), so the value is stored raw. For a DotWiz value: a truthy stored
`"fromkeys"` goes through `DotWiz(value, _check_lists)` (`dotWizReinit`,
which raises); else a truthy stored `"append"` (with `_check_lists`) yields
`[_resolve_value(e, DotWiz) for e in value]`, the item-tuple list. -/
def upsertProcessValue (check_lists : Bool) (v : PyVal) : Except PyErr PyVal :=
  match v with
  | PyVal.dotwiz s =>
      if isTruthy (dictGetD s (PyKey.str "fromkeys") PyVal.none) then
        (dotWizReinit s).map PyVal.dotwiz
      else if check_lists && isTruthy (dictGetD s (PyKey.str "append") PyVal.none) then
        Except.ok (PyVal.list (s.map (fun kv => PyVal.tuple [keyToVal kv.1, kv.2])))
      else Except.ok v
  | _ => Except.ok v

/-- True iff the key is a string (usable as a `**kwargs` keyword). -/
def isStrKey : PyKey → Bool
  | PyKey.str _ => true
  | PyKey.int _ => false

/-- `_upsert_into_dot_wiz(self, input_dict=None, _check_lists=True,
_check_types=True, **kwargs)` — bound as both `DotWiz.__init__` and
`DotWiz.update`; `self` is the backing store before the call (empty for
`__init__`).

Faithful to the source:
- `if not kwargs and not input_dict: return` — no-op when both are falsy;
- `combined_dict = {**input_dict, **kwargs} if input_dict else kwargs`;
- `if not _check_types: self.__dict__.update(**combined_dict)` — the
  keyword splat requires every key to be a string, else TypeError;
- otherwise the loop runs `for key in input_dict:` — NOT over
  `combined_dict`, so keyword entries are silently dropped, and when
  `input_dict is None` (keyword-only call) iterating None raises TypeError;
  each value is processed by the inline probes (`upsertProcessValue`) and
  written to the store. -/
def _upsert_into_dot_wiz (self : Store) (input_dict : Option Store)
    (check_lists check_types : Bool) (kwargs : List (String × PyVal)) :
    Except PyErr Store :=
  let inputFalsy := match input_dict with
    | Option.none => true
    | some d => d.isEmpty
  if kwargs.isEmpty && inputFalsy then Except.ok self
  else
    let kwStore : Store := kwargs.map (fun kv => (PyKey.str kv.1, kv.2))
    let combined : Store := match input_dict with
      | some d => if d.isEmpty then kwStore else dictUnion d kwStore
      | Option.none => kwStore
    if !check_types then
      if combined.all (fun kv => isStrKey kv.1) then
        Except.ok (dictUnion self combined)
      else Except.error (PyErr.typeError "keywords must be strings")
    else
      match input_dict with
      | Option.none => Except.error (PyErr.typeError "NoneType object is not iterable")
      | some d =>
          (d.mapM (fun kv => (upsertProcessValue check_lists kv.2).map (fun v => (kv.1, v)))).map
            (fun entries => entries.foldl (fun acc kv => dictSet acc kv.1 kv.2) self)

/-- `DotWiz(input_dict, _check_lists, _check_types, **kwargs)`:
`__init__` on a fresh instance, whose store starts empty. -/
def dotWizInit (input_dict : Option Store) (check_lists check_types : Bool)
    (kwargs : List (String × PyVal)) : Except PyErr Store :=
  _upsert_into_dot_wiz [] input_dict check_lists check_types kwargs

/-- `_merge_impl = _merge_impl_fn(dict.__or__)`, bound as `DotWiz.__or__`
(Python >= 3.9 branch):
`__other_dict = getattr(other, "__dict__", None) or {k: _resolve_value(
other[k], DotWiz, check_lists) for k in other}` — for a DotWiz operand the
slot `__dict__` is its backing store (an empty one is falsy, and the
comprehension over an empty DotWiz is also empty); for a nonempty plain dict
the comprehension calls the 2-parameter `_resolve_value` with 3 positional
arguments and raises TypeError; for any other nonempty operand the
comprehension's iteration/indexing raises (TypeError for non-iterables).
Then `op(self.__dict__, __other_dict)` merges with right precedence, and
`DotWiz(__merged_dict, _check_types=False)` rebuilds (whose `update(**...)`
splat requires string keys). -/
def _or_impl (self : Store) (other : PyVal) : Except PyErr Store :=
  match other with
  | PyVal.dotwiz s =>
      dotWizInit (some (dictUnion self s)) true false []
  | PyVal.dict d =>
      if d.isEmpty then dotWizInit (some (dictUnion self [])) true false []
      else Except.error (PyErr.typeError resolveArityMsg)
  | _ => Except.error (PyErr.typeError "object is not iterable")

/-- `s.strip("_")`: drop leading and trailing underscores. -/
def stripUnderscores (s : String) : String :=
  String.mk (((s.toList.dropWhile (fun c => c = '_')).reverse.dropWhile
    (fun c => c = '_')).reverse)

/-- `k.strip("_")` on a dict key: works for strings, raises AttributeError
for ints. -/
def stripKey : PyKey → Except PyErr PyKey
  | PyKey.str s => Except.ok (PyKey.str (stripUnderscores s))
  | PyKey.int _ => Except.error (PyErr.attributeError "int object has no attribute strip")

/-- `dict(iterable)` applied to a sequence of former dict KEYS, as reached by
`DotWiz.to_dict` on a plain (never-converted) dict value: its final branch
runs `type(o)(DotWiz.to_dict(e, keep_snakes) for e in o)`, and iterating a
dict yields keys, which `to_dict` returns unchanged (strings have `strip`,
ints have no `__iter__`). `dict()` then requires every element to be a
2-item sequence: a 2-character string becomes a (char, char) entry, any
other string raises ValueError, an int raises TypeError. -/
def dictOfKeySeqAux (acc : Store) : List PyKey → Except PyErr PyVal
  | [] => Except.ok (PyVal.dict acc)
  | PyKey.str s :: rest =>
      match s.toList with
      | [c1, c2] =>
          dictOfKeySeqAux (dictSet acc (PyKey.str (String.mk [c1])) (PyVal.str (String.mk [c2]))) rest
      | _ => Except.error (PyErr.valueError "dictionary update sequence element has wrong length")
  | PyKey.int _ :: _ =>
      Except.error (PyErr.typeError "cannot convert dictionary update sequence element to a sequence")

/-- `dict(to_dict(e) for e in o)` over a raw dict `o` (see
`dictOfKeySeqAux`). -/
def dictOfKeySeq (keys : List PyKey) : Except PyErr PyVal :=
  dictOfKeySeqAux [] keys

mutual
/-- `DotWiz.to_dict(o, keep_snakes)` from `src/main.py` — the spec's
`to_plain`:
- first branch `not hasattr(o, "__iter__") or hasattr(o, "strip")`: scalars,
  strings and opaque objects are returned unchanged — and so is EVERY DotWiz
  instance. For a DotWiz, `hasattr(o, "__iter__")` always succeeds (store
  entry or the `__iter__` method), and `hasattr(o, "strip")` is true because
  the lookup of `"strip"` falls through to `__getattr__`, which returns
  `self.get("strip", None)` instead of raising — Python's `hasattr` reports
  false only on AttributeError, so the probe succeeds and `return o` runs.
  The one way the probe can fail is a stored non-callable entry under the
  key `"get"`, which shadows the bound method `__getattr__` calls and makes
  `hasattr` raise TypeError out of `to_dict` (see `getattrDW`);
- the `elif all((hasattr(o, "fromkeys"), hasattr(o, "from_json")))` dict
  comprehension branch is consequently unreachable: DotWiz instances are
  the only values with `from_json`, and they never get past the first
  branch;
- anything else iterable — lists, tuples, but ALSO plain dicts, which have
  `fromkeys` but not `from_json` — falls to
  `type(o)(DotWiz.to_dict(e, keep_snakes) for e in o)`; for a dict this
  iterates KEYS and rebuilds via `dict(...)` (see `dictOfKeySeq`), raising
  unless every key is a 2-character string. `keep_snakes` is only read in
  the unreachable branch. -/
def to_dict (keep_snakes : Bool) : PyVal → Except PyErr PyVal
  | PyVal.none => Except.ok PyVal.none
  | PyVal.bool b => Except.ok (PyVal.bool b)
  | PyVal.int n => Except.ok (PyVal.int n)
  | PyVal.str s => Except.ok (PyVal.str s)
  | PyVal.pyObj nm => Except.ok (PyVal.pyObj nm)
  | PyVal.dotwiz s => (getattrDW s "strip").map (fun _ => PyVal.dotwiz s)
  | PyVal.dict d => dictOfKeySeq (d.map (fun kv => kv.1))
  | PyVal.list xs => (to_dictList keep_snakes xs).map PyVal.list
  | PyVal.tuple xs => (to_dictList keep_snakes xs).map PyVal.tuple

/-- Elementwise `to_dict` over a sequence. -/
def to_dictList (keep_snakes : Bool) : List PyVal → Except PyErr (List PyVal)
  | [] => Except.ok []
  | x :: xs => do
      let y ← to_dict keep_snakes x
      let ys ← to_dictList keep_snakes xs
      Except.ok (y :: ys)
end

/-- Minimal JSON string escaping (quote and backslash; the inputs exercised
by the claims contain no control characters). -/
def jsonEscape (s : String) : String :=
  s.toList.foldl
    (fun acc c =>
      acc ++ (if c = '"' then "\\\"" else if c = '\\' then "\\\\" else String.mk [c])) ""

mutual
/-- `json.dumps(v, cls=...)` with default separators; `useEncoder` is true
when `cls=DotWizEncoder` is passed (the `keep_snakes` path of `to_json`), in
which case a DotWiz is serialized via its `__dict__`; without the encoder a
DotWiz (or any other non-JSON object) raises TypeError. Int dict keys are
coerced to their decimal strings, as `json.dumps` does. -/
def jsonDumps (useEncoder : Bool) : PyVal → Except PyErr String
  | PyVal.none => Except.ok "null"
  | PyVal.bool b => Except.ok (if b then "true" else "false")
  | PyVal.int n => Except.ok (toString n)
  | PyVal.str s => Except.ok ("\"" ++ jsonEscape s ++ "\"")
  | PyVal.pyObj _ => Except.error (PyErr.typeError "Object is not JSON serializable")
  | PyVal.tuple xs =>
      (jsonDumpsList useEncoder xs).map (fun ps => "[" ++ String.intercalate ", " ps ++ "]")
  | PyVal.list xs =>
      (jsonDumpsList useEncoder xs).map (fun ps => "[" ++ String.intercalate ", " ps ++ "]")
  | PyVal.dict d =>
      (jsonDumpsEntries useEncoder d).map
        (fun ps => "\x7b" ++ String.intercalate ", " ps ++ "\x7d")
  | PyVal.dotwiz s =>
      if useEncoder then
        (jsonDumpsEntries useEncoder s).map
          (fun ps => "\x7b" ++ String.intercalate ", " ps ++ "\x7d")
      else Except.error (PyErr.typeError "Object of type DotWiz is not JSON serializable")

/-- Serialize the elements of an array. -/
def jsonDumpsList (useEncoder : Bool) : List PyVal → Except PyErr (List String)
  | [] => Except.ok []
  | x :: xs => do
      let y ← jsonDumps useEncoder x
      let ys ← jsonDumpsList useEncoder xs
      Except.ok (y :: ys)

/-- Serialize the entries of an object. -/
def jsonDumpsEntries (useEncoder : Bool) : List (PyKey × PyVal) → Except PyErr (List String)
  | [] => Except.ok []
  | (k, v) :: rest => do
      let ks := match k with
        | PyKey.str s => "\"" ++ jsonEscape s ++ "\""
        | PyKey.int n => "\"" ++ toString n ++ "\""
      let vs ← jsonDumps useEncoder v
      let tl ← jsonDumpsEntries useEncoder rest
      Except.ok ((ks ++ ": " ++ vs) :: tl)
end

/-- `DotWiz.to_json(o, file=None, keep_snakes=True)` with no file
destination, returning JSON text. The source computes
`__initial_dict = ({k.strip("_"): DotWiz.to_dict(v, False) for k, v in
o.__dict__.items()}, o.__dict___)[keep_snakes]` — BOTH tuple components are
evaluated: the stripped comprehension runs even when `keep_snakes` selects
component 1, and component 1 reads `o.__dict___` (three trailing
underscores, a typo), which is not a real attribute and resolves through
`__getattr__` to `self.get("__dict___", None)`, i.e. `None` for any store
without that literal key. The selected value is then passed to `json.dumps`
with `cls=DotWizEncoder` iff `keep_snakes`. -/
def to_json (store : Store) (keep_snakes : Bool) : Except PyErr String := do
  let stripped ← store.mapM (fun kv => do
      let k2 ← stripKey kv.1
      let v2 ← to_dict false kv.2
      Except.ok (k2, v2))
  let initial ← if keep_snakes then getattrDW store "__dict___"
    else Except.ok (PyVal.dict (stripped.foldl (fun acc kv => dictSet acc kv.1 kv.2) []))
  jsonDumps keep_snakes initial

/-- `DotWiz.from_json(json=text, file=None)`. The first parameter is named
`json` in the source, shadowing the stdlib `json` module: after the
falsy-argument check (`ValueError` when neither text nor file is given),
`return json.loads(json, object_hook=__object_hook, **kwargs)` is an
attribute access on the string argument itself and raises AttributeError
before any parsing happens. (The file branch likewise calls `.load` on the
`json` parameter, `None` there.) -/
def from_json (jsonText : Option String) : Except PyErr PyVal :=
  match jsonText with
  | Option.none => Except.error (PyErr.valueError "Either a JSON string or a file must be provided.")
  | some s =>
      if s = "" then Except.error (PyErr.valueError "Either a JSON string or a file must be provided.")
      else Except.error (PyErr.attributeError "str object has no attribute loads")

/-!
Embedding of the lazy-conversion variant in
`src/benchmarks/main_test.py`. Its `DotWiz` overrides `__getattribute__`:
except for a whitelist of names, an attribute read goes straight to the
backing store, and a raw dict value is converted to a DotWiz and written
back when the instance is not in preprocess (eager) mode — the spec's lazy
mode. The `preprocess` flag is never stored by the constructor, so its very
first read falls through `__getattr__`, which caches `None` under the key
`"preprocess"` in the store and returns it (falsy: lazy mode is the
default). `DotWiz(value)` inside the conversion runs the `main_test`
constructor with `preprocess=False`, which copies the raw entries verbatim
into a fresh store. -/

namespace MainTest

/-- The names `__getattribute__` routes to `super().__getattribute__`
(lines 228-235 of `src/benchmarks/main_test.py`). -/
def whitelist : List String :=
  ["preprocess", "__dict__", "__class__", "__slots__", "_upsert_into_dot_wiz",
   "_resolve_value"]

/-- Names found on the `main_test` DotWiz class or inherited from `object`;
`super().__getattribute__(name)` returns these when the backing store has no
entry for `name`. -/
def classAttrs : List String :=
  ["__slots__", "__init__", "update", "__bool__", "__contains__", "__eq__",
   "__ne__", "__hash__", "_setitem_impl", "__class_getitem__", "__delitem__",
   "__getitem__", "__getattr__", "__getattribute__", "__setattr__",
   "__setitem__", "__iter__", "__len__", "__repr__", "__or__", "__ior__",
   "__ror__", "__reversed__", "clear", "copy", "fromkeys", "get", "keys",
   "items", "pop", "popitem", "setdefault", "values", "from_json", "to_dict",
   "to_json", "__module__", "__qualname__", "__doc__", "__str__", "__new__",
   "__reduce__", "__reduce_ex__", "__sizeof__", "__dir__", "__delattr__",
   "__format__", "__ge__", "__gt__", "__le__", "__lt__", "__init_subclass__",
   "__subclasshook__"]

/-- `DotWiz(d)` as called during lazy conversion: the `main_test`
constructor with `preprocess` left at its default `False` runs
`self.__dict__.update(combined_dict)` on a fresh store, copying the raw
entries verbatim. -/
def convert (d : Store) : PyVal :=
  PyVal.dotwiz d

/-- Attribute read `dw.k` in the `main_test` variant; returns the value and
the (possibly mutated) store.

Trace, faithful to `__getattribute__` (lines 226-244) and `__getattr__`
(lines 215-224):
- a whitelisted name goes to `super().__getattribute__`: the store entry if
  present (`__dict__` and `__class__` resolve to descriptors first), else a
  class attribute, else — via the `__getattr__` fallback Python runs when
  `__getattribute__` raises AttributeError — the store gains the entry
  `name: None` and `None` is returned;
- otherwise the store is consulted: a non-dict value is returned as-is; a
  raw dict value is converted (`DotWiz(value)`) and WRITTEN BACK when the
  `preprocess` attribute is falsy. Reading `preprocess` when the store has
  no such key raises AttributeError inside `__getattribute__`, so Python
  re-enters through `__getattr__(k)`, whose own `self.preprocess` read
  caches `preprocess: None` in the store before converting;
- a miss on the store falls back to a class attribute, or `__getattr__`
  caches `k: None` and returns `None`. -/
def getAttr (self : Store) (k : String) : PyVal × Store :=
  if k ∈ whitelist then
    if k = "__dict__" then (PyVal.dict self, self)
    else if k = "__class__" then (PyVal.pyObj k, self)
    else
      match dictGet self (PyKey.str k) with
      | some v => (v, self)
      | Option.none =>
          if k ∈ classAttrs then (PyVal.pyObj k, self)
          else (PyVal.none, dictSet self (PyKey.str k) PyVal.none)
  else
    match dictGet self (PyKey.str k) with
    | some (PyVal.dict d) =>
        (match dictGet self (PyKey.str "preprocess") with
         | some p =>
             if isTruthy p then (PyVal.dict d, self)
             else (convert d, dictSet self (PyKey.str k) (convert d))
         | Option.none =>
             let s1 := dictSet self (PyKey.str "preprocess") PyVal.none
             (convert d, dictSet s1 (PyKey.str k) (convert d)))
    | some v => (v, self)
    | Option.none =>
        if k ∈ classAttrs then (PyVal.pyObj k, self)
        else (PyVal.none, dictSet self (PyKey.str k) PyVal.none)

end MainTest

/-- Values whose top-level constructor the constructor loop stores verbatim:
everything except a DotWiz instance (the only values in the domain owning an
instance `__dict__`); in particular every JSON-like value — scalars,
strings, lists, plain dicts. -/
def isPlainVal : PyVal → Bool
  | PyVal.dotwiz _ => false
  | _ => true

theorem upsertProcessValue_plain (cl : Bool) (v : PyVal)
    (h : isPlainVal v = true) : upsertProcessValue cl v = Except.ok v := by
  cases v
  case dotwiz => simp [isPlainVal] at h
  all_goals rfl

theorem mapM_loop_upsert_plain (cl : Bool) (m : Store) :
    ∀ acc : Store, (∀ kv ∈ m, isPlainVal kv.2 = true) →
      List.mapM.loop (fun kv => (upsertProcessValue cl kv.2).map (fun v => (kv.1, v))) m acc
        = Except.ok (acc.reverse ++ m) := by
  induction m with
  | nil =>
      intro acc _
      simp only [List.append_nil]
      rfl
  | cons kv rest ih =>
      intro acc h
      have h1 := h kv (List.mem_cons_self _ _)
      have h2 : ∀ kv2 ∈ rest, isPlainVal kv2.2 = true :=
        fun kv2 hm => h kv2 (List.mem_cons_of_mem _ hm)
      calc List.mapM.loop
              (fun kv2 => (upsertProcessValue cl kv2.2).map (fun v => (kv2.1, v))) (kv :: rest) acc
          = List.mapM.loop
              (fun kv2 => (upsertProcessValue cl kv2.2).map (fun v => (kv2.1, v))) rest (kv :: acc) := by
            show ((upsertProcessValue cl kv.2).map (fun v => (kv.1, v)) >>= fun x =>
                List.mapM.loop
                  (fun kv2 => (upsertProcessValue cl kv2.2).map (fun v => (kv2.1, v))) rest (x :: acc))
              = List.mapM.loop
                  (fun kv2 => (upsertProcessValue cl kv2.2).map (fun v => (kv2.1, v))) rest (kv :: acc)
            rw [upsertProcessValue_plain cl kv.2 h1]
            rfl
        _ = Except.ok ((kv :: acc).reverse ++ rest) := ih (kv :: acc) h2
        _ = Except.ok (acc.reverse ++ kv :: rest) := by simp

theorem mapM_upsertProcessValue_plain (cl : Bool) (m : Store)
    (h : ∀ kv ∈ m, isPlainVal kv.2 = true) :
    m.mapM (fun kv => (upsertProcessValue cl kv.2).map (fun v => (kv.1, v)))
      = Except.ok m := by
  simpa [List.mapM] using mapM_loop_upsert_plain cl m [] h

theorem dictSet_append_of_absent (acc : Store) (k : PyKey) (v : PyVal)
    (h : dictGet acc k = Option.none) :
    dictSet acc k v = acc ++ [(k, v)] := by
  induction acc with
  | nil => rfl
  | cons kv rest ih =>
      obtain ⟨k2, v2⟩ := kv
      by_cases hk : k2 = k
      · simp [dictGet, hk] at h
      · simp only [dictGet, if_neg hk] at h
        simp [dictSet, hk, ih h]

theorem dictGet_append_single_ne (acc : Store) (k k2 : PyKey) (v : PyVal)
    (h : dictGet acc k2 = Option.none) (hne : k ≠ k2) :
    dictGet (acc ++ [(k, v)]) k2 = Option.none := by
  induction acc with
  | nil => simp [dictGet, hne]
  | cons kv rest ih =>
      obtain ⟨k3, v3⟩ := kv
      by_cases hk : k3 = k2
      · simp [dictGet, hk] at h
      · simp only [dictGet, if_neg hk] at h
        simp only [List.cons_append, dictGet, if_neg hk]
        exact ih h

theorem foldl_dictSet_eq_append (m : Store) :
    ∀ acc : Store, (m.map Prod.fst).Nodup →
      (∀ k ∈ m.map Prod.fst, dictGet acc k = Option.none) →
      m.foldl (fun a kv => dictSet a kv.1 kv.2) acc = acc ++ m := by
  induction m with
  | nil =>
      intro acc _ _
      simp
  | cons kv rest ih =>
      intro acc hnd habs
      obtain ⟨k, v⟩ := kv
      have hnd2 : k ∉ rest.map Prod.fst ∧ (rest.map Prod.fst).Nodup :=
        List.nodup_cons.mp (by simpa using hnd)
      have hk : dictGet acc k = Option.none := habs k (by simp)
      have hstep : ∀ k2 ∈ rest.map Prod.fst, dictGet (acc ++ [(k, v)]) k2 = Option.none := by
        intro k2 hm
        have hne : k ≠ k2 := by
          intro e
          exact hnd2.1 (e ▸ hm)
        exact dictGet_append_single_ne acc k k2 v (habs k2 (by simp [hm])) hne
      rw [List.foldl_cons, dictSet_append_of_absent acc k v hk,
        ih (acc ++ [(k, v)]) hnd2.2 hstep]
      simp

/-!
Claim theorems. Each theorem states the (confirmed or amended) claim, or
evaluates the code at a failing input for claims the code violates.
-/

/-- C1: the claimed JSON round-trip `DotWiz.from_json(DotWiz(m).to_json())
== DotWiz(m)` is impossible in the code. For the flat mapping
`m = {"a": 1}`, `to_json` (no file destination, default `keep_snakes=True`)
selects `o.__dict___` — a typo with three trailing underscores that
`__getattr__` resolves to `None` — and returns the text `"null"` instead of
the JSON of the contents; and `from_json` on any nonempty text raises
AttributeError because its parameter `json` shadows the `json` module, so no
reconstruction (and no object-hook conversion) ever happens. -/
theorem C1_json_round_trip_broken :
    to_json [(PyKey.str "a", PyVal.int 1)] true = Except.ok "null" ∧
    from_json (some "null")
      = Except.error (PyErr.attributeError "str object has no attribute loads") :=
  ⟨rfl, rfl⟩

/-- C2: eager construction does NOT convert nested mappings. For
`DotWiz({"a": {"b": 1}})` with the default flags, the probe
`value.__dict__.get("fromkeys")` raises AttributeError (builtin dict
instances have no `__dict__`), so the raw inner dict is stored verbatim and
remains reachable in the backing store. -/
theorem C2_nested_mapping_stored_raw :
    dotWizInit (some [(PyKey.str "a", PyVal.dict [(PyKey.str "b", PyVal.int 1)])]) true true []
      = Except.ok [(PyKey.str "a", PyVal.dict [(PyKey.str "b", PyVal.int 1)])] :=
  rfl

/-- C3 counterexample: the round-trip is NOT universal over JSON-like
mappings. For `m = {"get": 1}`, `to_dict(DotWiz(m))` raises TypeError
instead of yielding a value equal to `m`: the first-branch probe
`hasattr(o, "strip")` resolves `"strip"` through `__getattr__`, whose
`self.get(...)` call finds the stored `1` shadowing the bound `get` method
and calls it; `hasattr` only swallows AttributeError, so the TypeError
escapes. -/
theorem C3_counterexample :
    to_dict true (PyVal.dotwiz [(PyKey.str "get", PyVal.int 1)])
      = Except.error (PyErr.typeError "stored object shadowing get is not callable") :=
  rfl

/-- C3 (amended): for every plain mapping `m` with JSON-like values, unique
keys, and no entry under the key `"get"`, the round-trip equality
`to_plain(DotMapping(m)) == m` holds, but degenerately: construction stores
`m` verbatim (nested mappings are never converted, see C2), and `to_dict`
returns the wrapper ITSELF unchanged — not a plain mapping — via its first
branch, because `hasattr(o, "strip")` is true for any DotWiz
(`__getattr__` returns `None` instead of raising). The returned wrapper's
backing store is exactly `m`, so comparing it to `m` succeeds only because
`DotWiz.__eq__` compares the raw backing store (`self.__dict__ == other`,
a dict compared with itself). -/
theorem C3_round_trip_degenerate (m : Store)
    (hplain : m.all (fun kv => isPlainVal kv.2) = true)
    (hnodup : (m.map Prod.fst).Nodup)
    (hget : dictGet m (PyKey.str "get") = Option.none) :
    dotWizInit (some m) true true [] = Except.ok m ∧
    to_dict true (PyVal.dotwiz m) = Except.ok (PyVal.dotwiz m) := by
  have hp2 : ∀ kv ∈ m, isPlainVal kv.2 = true := by
    simpa [List.all_eq_true] using hplain
  constructor
  · cases m with
    | nil => rfl
    | cons kv rest =>
        have hm := mapM_loop_upsert_plain true (kv :: rest) [] hp2
        have hf := foldl_dictSet_eq_append (kv :: rest) [] hnodup
          (fun k _ => rfl)
        simp only [List.reverse_nil, List.nil_append] at hm hf
        simp [dotWizInit, _upsert_into_dot_wiz, List.mapM, hm]
        show Except.ok (List.foldl (fun acc kv2 => dictSet acc kv2.1 kv2.2) [] (kv :: rest))
            = Except.ok (kv :: rest)
        rw [hf]
  · simp only [to_dict, getattrDW]
    rw [if_neg (by decide : ¬ ("strip" = "__dict__"))]
    cases hs : dictGet m (PyKey.str "strip") with
    | some v => rfl
    | none =>
        rw [if_neg (by decide : ¬ ("strip" = "__hash__")),
          if_neg (by decide : ¬ ("strip" ∈ dotWizClassAttrs)), hget]
        rfl

/-- C3 witness: the amended round-trip at the nested mapping
`m = {"a": {"b": 1}}`: construction stores it verbatim and `to_dict`
returns the wrapper unchanged. -/
theorem C3_witness :
    dotWizInit (some [(PyKey.str "a", PyVal.dict [(PyKey.str "b", PyVal.int 1)])]) true true []
        = Except.ok [(PyKey.str "a", PyVal.dict [(PyKey.str "b", PyVal.int 1)])] ∧
    to_dict true (PyVal.dotwiz [(PyKey.str "a", PyVal.dict [(PyKey.str "b", PyVal.int 1)])])
        = Except.ok (PyVal.dotwiz [(PyKey.str "a", PyVal.dict [(PyKey.str "b", PyVal.int 1)])]) :=
  C3_round_trip_degenerate [(PyKey.str "a", PyVal.dict [(PyKey.str "b", PyVal.int 1)])]
    (by decide) (by decide) rfl

/-- C4 counterexample: attribute-style read of the absent key `"x"` on
`DotWiz({"a": 1})` does NOT fail with an AttributeNotFound error: it
returns `None` (`__getattr__` is `self.get(item, None)`, "default dict
behavior"), refuting the claimed raise-vs-default asymmetry. -/
theorem C4_counterexample :
    getattrDW [(PyKey.str "a", PyVal.int 1)] "x" = Except.ok PyVal.none :=
  rfl

/-- C4 (amended): for every absent key that is not the name of a class
attribute (and with no stored entry shadowing the `get` method), attribute
read returns `None` WITHOUT raising, `get(key, default)` returns the
supplied default, and subscript read of a string key returns `None`; only
subscript read of an absent non-string key raises, with a KeyNotFound
error. There is no raise-vs-default asymmetry between attribute and
subscript access. -/
theorem C4_absent_key_reads_default (s : Store) (name : String) (d : PyVal) (n : Int)
    (hattr : name ∉ dotWizClassAttrs) (hdd : name ≠ "__dict__")
    (habs : dictGet s (PyKey.str name) = Option.none)
    (hget : dictGet s (PyKey.str "get") = Option.none)
    (habsn : dictGet s (PyKey.int n) = Option.none) :
    getattrDW s name = Except.ok PyVal.none ∧
    dotWizGet s (PyKey.str name) d = d ∧
    dotWizGetItem s (PyKey.str name) = Except.ok PyVal.none ∧
    dotWizGetItem s (PyKey.int n) = Except.error (PyErr.keyError (reprKey (PyKey.int n))) := by
  have hh : name ≠ "__hash__" := by
    intro e
    exact hattr (e ▸ (by decide : "__hash__" ∈ dotWizClassAttrs))
  have h1 : getattrDW s name = Except.ok PyVal.none := by
    simp [getattrDW, hdd, habs, hh, hattr, hget, dotWizGet, dictGetD]
  refine ⟨h1, ?_, ?_, ?_⟩
  · simp [dotWizGet, dictGetD, habs]
  · simp [dotWizGetItem, h1]
  · simp [dotWizGetItem, habsn]

/-- C4 witness: the amended behaviour at `DotWiz({"a": 1})` with string key
`"x"`, default `7`, and int key `3`. -/
theorem C4_witness :
    getattrDW [(PyKey.str "a", PyVal.int 1)] "x" = Except.ok PyVal.none ∧
    dotWizGet [(PyKey.str "a", PyVal.int 1)] (PyKey.str "x") (PyVal.int 7) = PyVal.int 7 ∧
    dotWizGetItem [(PyKey.str "a", PyVal.int 1)] (PyKey.str "x") = Except.ok PyVal.none ∧
    dotWizGetItem [(PyKey.str "a", PyVal.int 1)] (PyKey.int 3)
      = Except.error (PyErr.keyError (reprKey (PyKey.int 3))) :=
  C4_absent_key_reads_default [(PyKey.str "a", PyVal.int 1)] "x" (PyVal.int 7) 3
    (by decide) (by decide) rfl rfl rfl

/-- C5: lazy conversion converts once and caches. In the lazy variant
(src/benchmarks/main_test.py — the module where lazy mode is implemented;
lazy is the default, since `preprocess` is falsy), reading a key holding a
raw dict converts it to a DotWiz wrapping the same entries, writes the
converted instance back under the key, and a second read returns exactly
the stored converted value with the store unchanged: conversion happens at
most once per key. -/
theorem C5_lazy_read_converts_once (s : Store) (k : String) (d : Store)
    (hw : k ∉ MainTest.whitelist)
    (hk : dictGet s (PyKey.str k) = some (PyVal.dict d))
    (hp : ∀ p, dictGet s (PyKey.str "preprocess") = some p → isTruthy p = false) :
    (MainTest.getAttr s k).1 = PyVal.dotwiz d ∧
    dictGet (MainTest.getAttr s k).2 (PyKey.str k) = some (PyVal.dotwiz d) ∧
    MainTest.getAttr (MainTest.getAttr s k).2 k
      = ((MainTest.getAttr s k).1, (MainTest.getAttr s k).2) := by
  cases hpp : dictGet s (PyKey.str "preprocess") with
  | none =>
      have h1 : MainTest.getAttr s k
          = (MainTest.convert d,
             dictSet (dictSet s (PyKey.str "preprocess") PyVal.none) (PyKey.str k)
               (MainTest.convert d)) := by
        simp [MainTest.getAttr, hw, hk, hpp]
      refine ⟨by rw [h1]; rfl, ?_, ?_⟩
      · rw [h1]
        exact dictGet_set_self _ _ _
      · rw [h1]
        simp [MainTest.getAttr, hw, dictGet_set_self, MainTest.convert]
  | some p =>
      have hpf : isTruthy p = false := hp p hpp
      have h1 : MainTest.getAttr s k
          = (MainTest.convert d, dictSet s (PyKey.str k) (MainTest.convert d)) := by
        simp [MainTest.getAttr, hw, hk, hpp, hpf]
      refine ⟨by rw [h1]; rfl, ?_, ?_⟩
      · rw [h1]
        exact dictGet_set_self _ _ _
      · rw [h1]
        simp [MainTest.getAttr, hw, dictGet_set_self, MainTest.convert]

/-- C5 witness: the instance `DotWiz` store `{"a": {"b": 1}}` in lazy mode
(no `preprocess` entry): the first read of `"a"` yields the converted
DotWiz. -/
theorem C5_witness :
    (MainTest.getAttr [(PyKey.str "a", PyVal.dict [(PyKey.str "b", PyVal.int 1)])] "a").1
      = PyVal.dotwiz [(PyKey.str "b", PyVal.int 1)] :=
  (C5_lazy_read_converts_once [(PyKey.str "a", PyVal.dict [(PyKey.str "b", PyVal.int 1)])]
    "a" [(PyKey.str "b", PyVal.int 1)] (by decide) rfl
    (fun p h => by simp [dictGet] at h)).1

/-- C6: `DotWiz({"a": 1}).merge({"a": 2, "b": 3})` — the `|` operator with a
plain-dict right operand — does not produce the merged mapping: the operand
has no `__dict__`, so `_merge_impl` builds `{k: _resolve_value(other[k],
DotWiz, check_lists) for k in other}`, a 3-positional-argument call of the
2-parameter `_resolve_value`, and raises TypeError on the spec's own
example. -/
theorem C6_merge_with_plain_dict_raises :
    _or_impl [(PyKey.str "a", PyVal.int 1)]
      (PyVal.dict [(PyKey.str "a", PyVal.int 2), (PyKey.str "b", PyVal.int 3)])
      = Except.error (PyErr.typeError resolveArityMsg) :=
  rfl

/-- C7: keyword entries are NOT merged into the store. With the default
`_check_types=True`, the constructor loop iterates `input_dict` rather than
`combined_dict`: a keyword-only call `DotWiz(a=1)` crashes iterating `None`,
and `DotWiz({"a": 1}, b=2)` silently drops `b`, leaving only the source
mapping's entries. -/
theorem C7_kwargs_dropped_or_crash :
    dotWizInit Option.none true true [("a", PyVal.int 1)]
      = Except.error (PyErr.typeError "NoneType object is not iterable") ∧
    dotWizInit (some [(PyKey.str "a", PyVal.int 1)]) true true [("b", PyVal.int 2)]
      = Except.ok [(PyKey.str "a", PyVal.int 1)] :=
  ⟨rfl, rfl⟩

/-- C8: containment is NOT equivalent to key existence: `"x" in
DotWiz({"a": 1})` evaluates to True although `"x"` is absent, because
`__contains__` returns the 2-tuple `(item, getattr(self, item))` — always
truthy — and `getattr` never raises for a string name (`__getattr__`
defaults to `None`). -/
theorem C8_contains_true_for_absent_string_key :
    dotWizContains [(PyKey.str "a", PyVal.int 1)] (PyKey.str "x") = true :=
  rfl

/-- C9 counterexample: deleting the absent key `"x"` from an empty DotWiz
fails with an AttributeNotFound error, not the claimed KeyNotFound:
`__delitem__` routes string keys through `delattr`. -/
theorem C9_counterexample :
    dotWizDelItem [] (PyKey.str "x") = Except.error (PyErr.attributeError "x") :=
  rfl

/-- C9 (amended): deleting a present key removes it from the backing store;
deleting an absent STRING key fails with an AttributeNotFound error
(`delattr` path), while deleting an absent non-string key fails with a
KeyNotFound error (the `except TypeError` fallback `del self.__dict__[key]`).
(The string key `"__dict__"` is excluded: it hits the slot descriptor.) -/
theorem C9_delete_semantics (s : Store) (k : PyKey) (hk : k ≠ PyKey.str "__dict__") :
    ((dictGet s k).isSome →
        dotWizDelItem s k = Except.ok (dictRemove s k) ∧
        dictGet (dictRemove s k) k = Option.none) ∧
    (dictGet s k = Option.none →
        dotWizDelItem s k = Except.error (match k with
          | PyKey.str nm => PyErr.attributeError nm
          | PyKey.int _ => PyErr.keyError (reprKey k))) := by
  constructor
  · intro hp
    obtain ⟨v, hv⟩ := Option.isSome_iff_exists.mp hp
    cases k with
    | str nm =>
        have hnm : nm ≠ "__dict__" := by
          intro e
          exact hk (by rw [e])
        exact ⟨by simp [dotWizDelItem, hnm, hv], dictGet_remove_self s _⟩
    | int n =>
        exact ⟨by simp [dotWizDelItem, hv], dictGet_remove_self s _⟩
  · intro hn
    cases k with
    | str nm =>
        have hnm : nm ≠ "__dict__" := by
          intro e
          exact hk (by rw [e])
        simp [dotWizDelItem, hnm, hn]
    | int n => simp [dotWizDelItem, hn]

/-- C9 witness: deleting the present key `"a"` from `DotWiz({"a": 1})`
removes it. -/
theorem C9_witness :
    dotWizDelItem [(PyKey.str "a", PyVal.int 1)] (PyKey.str "a")
        = Except.ok (dictRemove [(PyKey.str "a", PyVal.int 1)] (PyKey.str "a")) ∧
    dictGet (dictRemove [(PyKey.str "a", PyVal.int 1)] (PyKey.str "a")) (PyKey.str "a")
        = Option.none :=
  (C9_delete_semantics [(PyKey.str "a", PyVal.int 1)] (PyKey.str "a") (by decide)).1 (by decide)

/-- C10: `setdefault` on a None-valued key does not overwrite-and-return the
default: on `DotWiz({"k": None})`, `setdefault("k", 5)` passes the
`result is not None` guard and then executes `_resolve_value(default,
DotWiz, check_lists)` — 3 positional arguments to a 2-parameter function —
raising TypeError before anything is stored or returned. -/
theorem C10_setdefault_raises_on_none :
    dotWizSetdefault [(PyKey.str "k", PyVal.none)] (PyKey.str "k") (PyVal.int 5) true
      = Except.error (PyErr.typeError resolveArityMsg) :=
  rfl
